import Mathlib

/-!
Verification of the CrowdCastr connection/session core against its two
source variants:

* variant A — `src/server.js` (global-broadcast version): a `streams` map
  from socket id to the latest camera frame, a single `activeLiveDevice`
  pointer, and two process-wide settings records;
* variant B — the `server.js` embedded in `src/setup.js` (room-scoped
  version): a `connectedDevices` map from socket id to a device record
  `{type, name, preview}` and socket.io rooms `control-room` and
  `arena-display`.

Each socket.io handler is embedded as a pure function from the server
state (plus the event's inputs) to the new state together with the list
of emissions the handler performs, in order.  An emission records the
socket.io target (`io.emit`, `socket.emit`, `socket.broadcast.emit`,
`io.to(room)`, `io.to(socketId)`) and the structured payload.
-/

set_option autoImplicit false

universe u

/-! ### Association-list operations modelling the JS `Map` -/

variable {α : Type u}

/-- Lookup in an association list keyed by strings; models `Map.get`. -/
def assocFind (k : String) : List (String × α) → Option α
  | [] => none
  | (k', v) :: rest => if k' = k then some v else assocFind k rest

/-- Insert or replace; models `Map.set` (keys stay unique). -/
def assocSet (k : String) (v : α) : List (String × α) → List (String × α)
  | [] => [(k, v)]
  | (k', v') :: rest =>
      if k' = k then (k, v) :: rest else (k', v') :: assocSet k v rest

/-- Remove every binding of the key; on the unique-keyed lists produced by
`assocSet` this agrees with `Map.delete`. -/
def assocErase (k : String) : List (String × α) → List (String × α)
  | [] => []
  | (k', v') :: rest =>
      if k' = k then assocErase k rest else (k', v') :: assocErase k rest

/-! ### Settings records (src/server.js lines 25-37)

A JS sub-object such as `displaySettings.colors` can lose fields when it
is replaced wholesale by a client-supplied partial, so every sub-field is
an `Option`: `none` models an absent (`undefined`) property. -/

structure MarginsObj where
  left : Option Int
  right : Option Int
  top : Option Int
  bottom : Option Int
deriving DecidableEq

structure ColorsObj where
  background : Option String
  font : Option String
deriving DecidableEq

structure DisplaySettings where
  margins : MarginsObj
  colors : ColorsObj
deriving DecidableEq

/-- Initial `displaySettings` of src/server.js lines 25-31. -/
def defaultDisplaySettings : DisplaySettings :=
  { margins := { left := some 0, right := some 0, top := some 0, bottom := some 0 },
    colors := { background := some "#000000", font := some "#FFFFFF" } }

structure MobileSettings where
  cameraFlip : Bool
  demoMode : Bool
  mainboardPopup : Bool
deriving DecidableEq

/-- Initial `mobileSettings` of src/server.js lines 33-37. -/
def defaultMobileSettings : MobileSettings :=
  { cameraFlip := false, demoMode := false, mainboardPopup := false }

/-- Client-supplied payload of `update-display-settings`: each top-level
key may be absent. -/
structure DisplayUpdate where
  margins : Option MarginsObj
  colors : Option ColorsObj
deriving DecidableEq

/-- Client-supplied payload of `update-mobile-settings`. -/
structure MobileUpdate where
  cameraFlip : Option Bool
  demoMode : Option Bool
  mainboardPopup : Option Bool
deriving DecidableEq

/-- src/server.js lines 143-144: `if (settings.margins) displaySettings.margins
= settings.margins; if (settings.colors) displaySettings.colors =
settings.colors;` — a supplied key replaces the whole sub-object. -/
def applyDisplayUpdate (s : DisplaySettings) (u : DisplayUpdate) : DisplaySettings :=
  let s1 := match u.margins with
    | some m => { s with margins := m }
    | none => s
  match u.colors with
  | some c => { s1 with colors := c }
  | none => s1

/-- src/server.js line 153: `mobileSettings = { ...mobileSettings,
...settings }` — per-key shallow merge of the flat record. -/
def applyMobileUpdate (s : MobileSettings) (u : MobileUpdate) : MobileSettings :=
  { cameraFlip := u.cameraFlip.getD s.cameraFlip,
    demoMode := u.demoMode.getD s.demoMode,
    mainboardPopup := u.mainboardPopup.getD s.mainboardPopup }

/-! ### Path handling for the sponsor upload (src/server.js lines 159-174) -/

/-- Split a path string on the separator character, as Node's `path.join`
does before normalising. -/
def splitSegsAux : List Char → List Char → List String
  | [], acc => [String.mk acc.reverse]
  | c :: rest, acc =>
      if c = '/' then String.mk acc.reverse :: splitSegsAux rest []
      else splitSegsAux rest (c :: acc)

def splitSegs (s : String) : List String := splitSegsAux s.data []

/-- One normalisation step of `path.join`: drop empty and `.` segments,
let `..` pop the previous segment.  The accumulator is kept reversed. -/
def normStep (acc : List String) (seg : String) : List String :=
  if seg = "" || seg = "." then acc
  else if seg = ".." then
    match acc with
    | [] => [".."]
    | a :: rest => if a = ".." then ".." :: a :: rest else rest
  else seg :: acc

/-- Node `path.join` over a list of parts, returned as the list of
normalised segments. -/
def pathJoinSegs (parts : List String) : List String :=
  ((parts.map splitSegs).flatten.foldl normStep []).reverse

/-- src/server.js line 161: `path.join(__dirname, 'public', 'uploads',
fileName)`, expressed relative to `__dirname`. -/
def uploadWritePathSegs (fileName : String) : List String :=
  pathJoinSegs ["public", "uploads", fileName]

/-- Whether a `__dirname`-relative segment list lies inside
`public/uploads`. -/
def inUploadsDir : List String → Bool
  | "public" :: "uploads" :: _ => true
  | _ => false

/-! ### Variant A: src/server.js -/

/-- Server state of src/server.js lines 23-37. -/
structure AState where
  streams : List (String × String)
  activeLiveDevice : Option String
  displaySettings : DisplaySettings
  mobileSettings : MobileSettings
deriving DecidableEq

/-- The state at process start (src/server.js lines 23-37). -/
def AState.initial : AState :=
  { streams := [], activeLiveDevice := none,
    displaySettings := defaultDisplaySettings,
    mobileSettings := defaultMobileSettings }

/-- Outbound messages of variant A, one constructor per emitted event
name and payload shape. -/
inductive AMsg where
  | initialSettings (display : DisplaySettings) (mobile : MobileSettings)
  | deviceConnected (id : String) (name : Option String)
  | mobileSettingsUpdated (m : MobileSettings)
  | previewUpdate (id : String) (stream : String)
  | arenaUpdate (stream : String)
  | liveDeviceChanged (id : Option String)
  | updateSponsors (sponsors : String)
  | displaySettingsUpdated (u : DisplayUpdate)
  | mobileSettingsUpdatedRaw (u : MobileUpdate)
  | sponsorUploaded (url : String)
deriving DecidableEq

/-- Emission targets available in variant A. -/
inductive ATarget where
  | everyone
  | sender
  | othersBroadcast
deriving DecidableEq

structure AEmit where
  target : ATarget
  msg : AMsg
deriving DecidableEq

/-- Which sockets receive an emission, given the connected sockets and
the id of the socket whose handler emitted it: `io.emit` reaches all,
`socket.emit` only the sender, `socket.broadcast.emit` all but the
sender. -/
def AEmit.recipients (e : AEmit) (connected : List String) (senderId : String) :
    List String :=
  match e.target with
  | .everyone => connected
  | .sender => [senderId]
  | .othersBroadcast => connected.filter (fun c => c ≠ senderId)

/-- src/server.js lines 83-87: every new connection is immediately sent
the full current settings snapshot via `socket.emit`. -/
def AState.onConnection (s : AState) : AState × List AEmit :=
  (s, [⟨.sender, .initialSettings s.displaySettings s.mobileSettings⟩])

/-- src/server.js lines 89-97: `register-mobile-device` emits
`device-connected` to everyone and echoes the mobile settings to the
sender; nothing is stored. -/
def AState.onRegisterMobileDevice (s : AState) (socketId : String)
    (name : Option String) : AState × List AEmit :=
  (s, [⟨.everyone, .deviceConnected socketId name⟩,
       ⟨.sender, .mobileSettingsUpdated s.mobileSettings⟩])

/-- src/server.js lines 99-115: `camera-stream` stores the frame under
the sender's socket id, emits `preview-update` to everyone, and, when the
sender is the active live device, also emits `arena-update`. -/
def AState.onCameraStream (s : AState) (socketId : String) (data : String) :
    AState × List AEmit :=
  ({ s with streams := assocSet socketId data s.streams },
   [⟨.everyone, .previewUpdate socketId data⟩] ++
     (if s.activeLiveDevice = some socketId then
        [⟨.everyone, .arenaUpdate data⟩]
      else []))

/-- src/server.js lines 117-131: `go-live` unconditionally sets
`activeLiveDevice`, emits `arena-update` when a stream is stored for the
target, and unconditionally emits `live-device-changed`. -/
def AState.onGoLive (s : AState) (deviceId : String) : AState × List AEmit :=
  ({ s with activeLiveDevice := some deviceId },
   (match assocFind deviceId s.streams with
    | some st => [⟨.everyone, .arenaUpdate st⟩]
    | none => []) ++
     [⟨.everyone, .liveDeviceChanged (some deviceId)⟩])

/-- src/server.js lines 134-137: `update-sponsors` is relayed to all
other sockets. -/
def AState.onUpdateSponsors (s : AState) (sponsors : String) :
    AState × List AEmit :=
  (s, [⟨.othersBroadcast, .updateSponsors sponsors⟩])

/-- src/server.js lines 140-147: `update-display-settings` applies the
partial and relays the raw partial to all other sockets. -/
def AState.onUpdateDisplaySettings (s : AState) (u : DisplayUpdate) :
    AState × List AEmit :=
  ({ s with displaySettings := applyDisplayUpdate s.displaySettings u },
   [⟨.othersBroadcast, .displaySettingsUpdated u⟩])

/-- src/server.js lines 150-156: `update-mobile-settings` merges the
partial and relays the raw partial to all other sockets. -/
def AState.onUpdateMobileSettings (s : AState) (u : MobileUpdate) :
    AState × List AEmit :=
  ({ s with mobileSettings := applyMobileUpdate s.mobileSettings u },
   [⟨.othersBroadcast, .mobileSettingsUpdatedRaw u⟩])

/-- src/server.js lines 159-174: `upload-sponsor` writes the file at
`path.join(__dirname, 'public', 'uploads', fileName)` (the write itself
is delegated I/O; `uploadWritePathSegs` gives the resolved path) and
answers the sender with the verbatim URL `/uploads/<fileName>`. -/
def AState.onUploadSponsor (s : AState) (fileName : String) :
    AState × List AEmit :=
  (s, [⟨.sender, .sponsorUploaded ("/uploads/" ++ fileName)⟩])

/-- src/server.js lines 176-185: `disconnect` deletes the stream entry
and, only when the leaving socket is the active live device, clears it
and emits `live-device-changed` with `null` to everyone. -/
def AState.onDisconnect (s : AState) (socketId : String) :
    AState × List AEmit :=
  let s1 := { s with streams := assocErase socketId s.streams }
  if s.activeLiveDevice = some socketId then
    ({ s1 with activeLiveDevice := none },
     [⟨.everyone, .liveDeviceChanged none⟩])
  else
    (s1, [])

/-! ### Variant B: the server.js embedded in src/setup.js -/

/-- A registry entry of `connectedDevices` (setup.js embedded server,
lines 129-133). -/
structure Device where
  type : String
  name : String
  preview : Option String
deriving DecidableEq

/-- One element of the `device-list-update` snapshot (embedded server
lines 111-116): `{ id, preview, type, name }`. -/
structure DeviceSummary where
  id : String
  preview : Option String
  type : String
  name : String
deriving DecidableEq

/-- Embedded server lines 111-116: the snapshot sent to a newly
connected control room. -/
def deviceSummaries (l : List (String × Device)) : List DeviceSummary :=
  l.map (fun p => ⟨p.1, p.2.preview, p.2.type, p.2.name⟩)

/-- Outbound messages of variant B. -/
inductive BMsg where
  | deviceListUpdate (devices : List DeviceSummary)
  | deviceConnected (id : String) (type : String) (name : String)
  | startPreview
  | previewUpdate (deviceId : String) (preview : String)
  | arenaDisplayUpdate (content : String) (sponsorLogo : String) (eventTitle : String)
  | deviceIsLive (deviceId : String)
  | deviceDisconnected (id : String)
deriving DecidableEq

/-- Emission targets available in variant B: `io.emit`, `socket.emit`,
`io.to(room)`, `io.to(socketId)`. -/
inductive BTarget where
  | everyone
  | sender
  | room (name : String)
  | toSocket (id : String)
deriving DecidableEq

structure BEmit where
  target : BTarget
  msg : BMsg
deriving DecidableEq

/-- Server state of the embedded server: the `connectedDevices` map
(line 85) plus the membership of the two socket.io rooms. -/
structure BState where
  connectedDevices : List (String × Device)
  controlRoomMembers : List String
  arenaDisplayMembers : List String
deriving DecidableEq

/-- The state at process start of the embedded server. -/
def BState.initial : BState :=
  { connectedDevices := [], controlRoomMembers := [], arenaDisplayMembers := [] }

/-- JS `x || fallback` on an optional string: `undefined` and `""` are
both falsy. -/
def jsNameOr (n : Option String) (fallback : String) : String :=
  match n with
  | some s => if s = "" then fallback else s
  | none => fallback

/-- Embedded server lines 106-119: `control-room-connected` joins the
`control-room` room and sends the sender the full device-list snapshot. -/
def BState.onControlRoomConnected (s : BState) (socketId : String) :
    BState × List BEmit :=
  ({ s with controlRoomMembers := s.controlRoomMembers ++ [socketId] },
   [⟨.sender, .deviceListUpdate (deviceSummaries s.connectedDevices)⟩])

/-- Embedded server lines 122-125: `arena-display-connected` joins the
`arena-display` room and emits nothing. -/
def BState.onArenaDisplayConnected (s : BState) (socketId : String) :
    BState × List BEmit :=
  ({ s with arenaDisplayMembers := s.arenaDisplayMembers ++ [socketId] }, [])

/-- Embedded server lines 128-141: `register-mobile-device` stores
`{type:'mobile', name: deviceInfo.name || 'Phone (size+1)', preview:null}`
and notifies the control-room room; the notification regenerates the
fallback name from the post-insertion map size. -/
def BState.onRegisterMobileDevice (s : BState) (socketId : String)
    (name : Option String) : BState × List BEmit :=
  let stored := jsNameOr name ("Phone " ++ toString (s.connectedDevices.length + 1))
  let s' := { s with connectedDevices :=
                assocSet socketId ⟨"mobile", stored, none⟩ s.connectedDevices }
  (s', [⟨.room "control-room",
         .deviceConnected socketId "mobile"
           (jsNameOr name ("Phone " ++ toString s'.connectedDevices.length))⟩])

/-- Embedded server lines 144-146: `camera-access-approved` tells the
sending socket to start its preview. -/
def BState.onCameraAccessApproved (s : BState) (socketId : String) :
    BState × List BEmit :=
  (s, [⟨.toSocket socketId, .startPreview⟩])

/-- Embedded server lines 149-159: `preview-update` is a silent no-op
unless the sender is in `connectedDevices`; otherwise it stores the
frame and forwards it to the control-room room. -/
def BState.onPreviewUpdate (s : BState) (socketId : String)
    (imageData : String) : BState × List BEmit :=
  match assocFind socketId s.connectedDevices with
  | some d =>
      ({ s with connectedDevices :=
            assocSet socketId { d with preview := some imageData } s.connectedDevices },
       [⟨.room "control-room", .previewUpdate socketId imageData⟩])
  | none => (s, [])

/-- Embedded server lines 162-177: `go-live` only has an effect when the
target device exists and has a stored preview; then it pushes the
preview (with the fixed overlay) to the arena-display room and announces
the live device to everyone. -/
def BState.onGoLive (s : BState) (deviceId : String) : BState × List BEmit :=
  match assocFind deviceId s.connectedDevices with
  | some d =>
      match d.preview with
      | some p =>
          (s, [⟨.room "arena-display",
                .arenaDisplayUpdate p "/images/dodge-ram-logo.png" "RENO RODEO"⟩,
               ⟨.everyone, .deviceIsLive deviceId⟩])
      | none => (s, [])
  | none => (s, [])

/-- Embedded server lines 180-187: `disconnect` notifies the
control-room room and removes the registry entry, only when the socket
was registered. -/
def BState.onDisconnect (s : BState) (socketId : String) :
    BState × List BEmit :=
  if (assocFind socketId s.connectedDevices).isSome then
    ({ s with connectedDevices := assocErase socketId s.connectedDevices },
     [⟨.room "control-room", .deviceDisconnected socketId⟩])
  else
    (s, [])

/-! ### Concrete example states used by the claim scenarios -/

/-- Two mobiles registered in variant B before any control room
connects. -/
def twoMobiles : BState :=
  (((BState.initial.onRegisterMobileDevice "M1" (some "Alice")).1).onRegisterMobileDevice
    "M2" (some "Bob")).1

/-- Variant B state after one unnamed registration of socket `X`. -/
def regOnce : BState := (BState.initial.onRegisterMobileDevice "X" none).1

/-- Variant B state after registering socket `X` twice without a name. -/
def regTwice : BState := (regOnce.onRegisterMobileDevice "X" none).1

/-- Variant A state in which device `A` is live. -/
def aLiveState : AState :=
  { AState.initial with streams := [("A", "frameA")], activeLiveDevice := some "A" }

/-- The `update-display-settings` partial `{colors:{background:"#111"}}`. -/
def bgUpdate : DisplayUpdate :=
  { margins := none, colors := some { background := some "#111", font := none } }

/-- The `update-display-settings` partial `{margins:{left:5}}`. -/
def leftUpdate : DisplayUpdate :=
  { margins := some { left := some 5, right := none, top := none, bottom := none },
    colors := none }

/-! ### Helper lemmas about the association-list operations -/

theorem assocFind_assocSet {β : Type u} (k : String) (v : β)
    (l : List (String × β)) : assocFind k (assocSet k v l) = some v := by
  induction l with
  | nil => simp [assocSet, assocFind]
  | cons hd tl ih =>
      obtain ⟨k', v'⟩ := hd
      by_cases h : k' = k <;> simp [assocSet, assocFind, h, ih]

theorem assocFind_assocErase {β : Type u} (k : String)
    (l : List (String × β)) : assocFind k (assocErase k l) = none := by
  induction l with
  | nil => simp [assocErase, assocFind]
  | cons hd tl ih =>
      obtain ⟨k', v'⟩ := hd
      by_cases h : k' = k <;> simp [assocErase, assocFind, h, ih]

theorem mem_assocErase_ne {β : Type u} (k : String) (l : List (String × β)) :
    ∀ p ∈ assocErase k l, p.1 ≠ k := by
  induction l with
  | nil => simp [assocErase]
  | cons hd tl ih =>
      obtain ⟨k', v'⟩ := hd
      by_cases h : k' = k
      · simpa [assocErase, h] using ih
      · intro p hp
        simp only [assocErase, h, if_false, List.mem_cons] at hp
        rcases hp with rfl | hp
        · exact h
        · exact ih p hp

theorem assocSet_length_of_find {β : Type u} (k : String) (v : β)
    (l : List (String × β)) (h : (assocFind k l).isSome) :
    (assocSet k v l).length = l.length := by
  induction l with
  | nil => simp [assocFind] at h
  | cons hd tl ih =>
      obtain ⟨k', v'⟩ := hd
      by_cases hk : k' = k
      · simp [assocSet, hk]
      · simp only [assocFind, hk, if_false] at h
        simp [assocSet, hk, ih h]

theorem assocSet_assocSet {β : Type u} (k : String) (v : β)
    (l : List (String × β)) :
    assocSet k v (assocSet k v l) = assocSet k v l := by
  induction l with
  | nil => simp [assocSet]
  | cons hd tl ih =>
      obtain ⟨k', v'⟩ := hd
      by_cases h : k' = k <;> simp [assocSet, h, ih]

/-! ### Claim theorems -/

/-- C2: in the variant that tracks a live selection (src/server.js),
disconnecting the session that is the current live selection resets
`activeLiveDevice` to `none` and emits `live-device-changed null` to
everyone, while disconnecting any other session leaves the live
selection unchanged and emits nothing. -/
theorem disconnect_live_selection (s : AState) (sockId : String) :
    (s.activeLiveDevice = some sockId →
      (s.onDisconnect sockId).1.activeLiveDevice = none ∧
      (s.onDisconnect sockId).2 =
        [⟨ATarget.everyone, AMsg.liveDeviceChanged none⟩]) ∧
    (s.activeLiveDevice ≠ some sockId →
      (s.onDisconnect sockId).1.activeLiveDevice = s.activeLiveDevice ∧
      (s.onDisconnect sockId).2 = []) := by
  unfold AState.onDisconnect
  constructor
  · intro h
    simp [h]
  · intro h
    simp [h]

/-- Witness for C2: with device `A` live, disconnecting `A` clears the
selection and notifies everyone; disconnecting `B` changes nothing. -/
theorem disconnect_live_selection_witness :
    ((aLiveState.onDisconnect "A").1.activeLiveDevice = none ∧
      (aLiveState.onDisconnect "A").2 =
        [⟨ATarget.everyone, AMsg.liveDeviceChanged none⟩]) ∧
    ((aLiveState.onDisconnect "B").1.activeLiveDevice = aLiveState.activeLiveDevice ∧
      (aLiveState.onDisconnect "B").2 = []) :=
  ⟨(disconnect_live_selection aLiveState "A").1 rfl,
   (disconnect_live_selection aLiveState "B").2 (by decide)⟩

/-- C3: a `camera-stream` update stores the frame as the sender's latest
preview and emits a `preview-update` that reaches the control-room
sockets; an `arena-update` with the same frame is additionally emitted
in the same handling step exactly when the sender is the current live
selection. -/
theorem camera_stream_preview_and_passthrough (s : AState)
    (sockId data : String) :
    assocFind sockId (s.onCameraStream sockId data).1.streams = some data ∧
    (⟨ATarget.everyone, AMsg.previewUpdate sockId data⟩ : AEmit) ∈
      (s.onCameraStream sockId data).2 ∧
    ((⟨ATarget.everyone, AMsg.arenaUpdate data⟩ : AEmit) ∈
        (s.onCameraStream sockId data).2 ↔
      s.activeLiveDevice = some sockId) ∧
    (s.onCameraStream sockId data).2 =
      [⟨ATarget.everyone, AMsg.previewUpdate sockId data⟩] ++
        (if s.activeLiveDevice = some sockId then
          [⟨ATarget.everyone, AMsg.arenaUpdate data⟩]
        else []) := by
  unfold AState.onCameraStream
  refine ⟨assocFind_assocSet sockId data s.streams, ?_, ?_, rfl⟩
  · by_cases h : s.activeLiveDevice = some sockId <;> simp [h]
  · by_cases h : s.activeLiveDevice = some sockId <;> simp [h]

/-- Witness for C3: with `A` live, a frame from `A` is stored and passed
through to the arena in the same step. -/
theorem camera_stream_passthrough_witness :
    assocFind "A" (aLiveState.onCameraStream "A" "f2").1.streams = some "f2" ∧
    (⟨ATarget.everyone, AMsg.arenaUpdate "f2"⟩ : AEmit) ∈
      (aLiveState.onCameraStream "A" "f2").2 := by
  have h := camera_stream_preview_and_passthrough aLiveState "A" "f2"
  exact ⟨h.1, h.2.2.1.mpr rfl⟩

/-- C9: every new connection is immediately sent exactly one message,
`initial-settings`, carrying the full current display and mobile
settings, and its `socket.emit` target delivers it to the connecting
socket only, whatever the set of other connected sockets. -/
theorem connection_pushes_settings_snapshot (s : AState)
    (connected : List String) (sockId : String) :
    (s.onConnection).2 =
      [⟨ATarget.sender, AMsg.initialSettings s.displaySettings s.mobileSettings⟩] ∧
    AEmit.recipients
        ⟨ATarget.sender, AMsg.initialSettings s.displaySettings s.mobileSettings⟩
        connected sockId = [sockId] :=
  ⟨rfl, rfl⟩

/-- C4: `control-room-connected` answers the sender, in the same step,
with a single `device-list-update` snapshot of every registered device
(id, preview, type, name), one summary per registry entry; in
particular, connecting a control room after two mobiles have registered
yields a snapshot of length 2 carrying their names. -/
theorem control_room_receives_snapshot (s : BState) (sockId : String) :
    (s.onControlRoomConnected sockId).2 =
      [⟨BTarget.sender, BMsg.deviceListUpdate (deviceSummaries s.connectedDevices)⟩] ∧
    (deviceSummaries s.connectedDevices).length = s.connectedDevices.length ∧
    (twoMobiles.onControlRoomConnected "C").2 =
      [⟨BTarget.sender, BMsg.deviceListUpdate
        [⟨"M1", none, "mobile", "Alice"⟩, ⟨"M2", none, "mobile", "Bob"⟩]⟩] := by
  refine ⟨rfl, by simp [deviceSummaries], by decide⟩

/-- C8: disconnecting a registered session removes it from
`connectedDevices`, notifies the control-room room with a
`device-disconnected` carrying its id, and afterwards no device summary
for that id can be produced any more. -/
theorem disconnect_removes_and_notifies (s : BState) (sockId : String)
    (h : (assocFind sockId s.connectedDevices).isSome = true) :
    (s.onDisconnect sockId).2 =
      [⟨BTarget.room "control-room", BMsg.deviceDisconnected sockId⟩] ∧
    assocFind sockId (s.onDisconnect sockId).1.connectedDevices = none ∧
    ∀ d ∈ deviceSummaries (s.onDisconnect sockId).1.connectedDevices,
      d.id ≠ sockId := by
  refine ⟨?_, ?_, ?_⟩
  · simp [BState.onDisconnect, h]
  · simp [BState.onDisconnect, h, assocFind_assocErase]
  · intro d hd
    simp only [BState.onDisconnect, h, if_true, deviceSummaries,
      List.mem_map] at hd
    obtain ⟨p, hp, rfl⟩ := hd
    exact mem_assocErase_ne sockId s.connectedDevices p hp

/-- Witness for C8: disconnecting the registered socket `X` emits the
notification and removes it from the registry. -/
theorem disconnect_removes_witness :
    (regOnce.onDisconnect "X").2 =
      [⟨BTarget.room "control-room", BMsg.deviceDisconnected "X"⟩] ∧
    assocFind "X" (regOnce.onDisconnect "X").1.connectedDevices = none := by
  have h := disconnect_removes_and_notifies regOnce "X" (by decide)
  exact ⟨h.1, h.2.1⟩

/-- C1 counterexample: in src/server.js, a `go-live` for id `D`, which
has no recorded preview, still changes the live selection from `none` to
`D` and emits a `live-device-changed` notification to everyone (though
no arena broadcast). -/
theorem go_live_no_preview_counterexample :
    assocFind "D" AState.initial.streams = none ∧
    AState.initial.activeLiveDevice = none ∧
    (AState.initial.onGoLive "D").1.activeLiveDevice = some "D" ∧
    (AState.initial.onGoLive "D").2 =
      [⟨ATarget.everyone, AMsg.liveDeviceChanged (some "D")⟩] :=
  ⟨rfl, rfl, rfl, rfl⟩

/-- C1 amended: for a target id with no recorded preview, the
setup.js-embedded variant treats `go-live` as a silent no-op (state
unchanged, no broadcast at all), while the src/server.js variant never
emits an arena broadcast but still sets the live selection and emits
`live-device-changed` to everyone. -/
theorem go_live_requires_preview (bs : BState) (as : AState) (id : String)
    (hb : ∀ d, assocFind id bs.connectedDevices = some d → d.preview = none)
    (ha : assocFind id as.streams = none) :
    bs.onGoLive id = (bs, []) ∧
    (as.onGoLive id).1.activeLiveDevice = some id ∧
    (as.onGoLive id).2 =
      [⟨ATarget.everyone, AMsg.liveDeviceChanged (some id)⟩] := by
  refine ⟨?_, rfl, ?_⟩
  · cases hfind : assocFind id bs.connectedDevices with
    | none => simp [BState.onGoLive, hfind]
    | some d => simp [BState.onGoLive, hfind, hb d hfind]
  · simp [AState.onGoLive, ha]

/-- Witness for the amended C1, at the empty states and target `D`. -/
theorem go_live_requires_preview_witness :
    BState.initial.onGoLive "D" = (BState.initial, []) ∧
    (AState.initial.onGoLive "D").1.activeLiveDevice = some "D" ∧
    (AState.initial.onGoLive "D").2 =
      [⟨ATarget.everyone, AMsg.liveDeviceChanged (some "D")⟩] :=
  go_live_requires_preview BState.initial AState.initial "D"
    (by intro d h; simp [BState.initial, assocFind] at h) rfl

/-- C5 counterexample: in src/server.js, a `camera-stream` from the
socket `S`, for which no registration ever happened and no session
record exists, creates a stream record and broadcasts a
`preview-update` to everyone. -/
theorem preview_unknown_counterexample :
    assocFind "S" AState.initial.streams = none ∧
    (AState.initial.onCameraStream "S" "frameX").1.streams = [("S", "frameX")] ∧
    (AState.initial.onCameraStream "S" "frameX").2 =
      [⟨ATarget.everyone, AMsg.previewUpdate "S" "frameX"⟩] :=
  ⟨rfl, rfl, rfl⟩

/-- C5 amended: in the setup.js-embedded variant a `preview-update` from
an unregistered sender is a silent no-op (state unchanged, nothing
emitted); in the src/server.js variant `camera-stream` always stores the
frame under the sender's id and broadcasts it, with no registration
check. -/
theorem preview_requires_registration (bs : BState) (as : AState)
    (sockId data : String)
    (hb : assocFind sockId bs.connectedDevices = none) :
    bs.onPreviewUpdate sockId data = (bs, []) ∧
    assocFind sockId (as.onCameraStream sockId data).1.streams = some data ∧
    (⟨ATarget.everyone, AMsg.previewUpdate sockId data⟩ : AEmit) ∈
      (as.onCameraStream sockId data).2 := by
  refine ⟨?_, assocFind_assocSet sockId data as.streams, ?_⟩
  · simp [BState.onPreviewUpdate, hb]
  · simp [AState.onCameraStream]

/-- Witness for the amended C5, at the empty states and sender `S`. -/
theorem preview_requires_registration_witness :
    BState.initial.onPreviewUpdate "S" "frameX" = (BState.initial, []) ∧
    assocFind "S" (AState.initial.onCameraStream "S" "frameX").1.streams =
      some "frameX" ∧
    (⟨ATarget.everyone, AMsg.previewUpdate "S" "frameX"⟩ : AEmit) ∈
      (AState.initial.onCameraStream "S" "frameX").2 :=
  preview_requires_registration BState.initial AState.initial "S" "frameX" rfl

/-- C6 counterexample: applying `{colors:{background:"#111"}}` then
`{margins:{left:5}}` through the `update-display-settings` handler does
yield the new background and left margin, but `colors.font` and
`margins.right` — specified in neither partial — are dropped from the
store instead of staying at their default values. -/
theorem settings_merge_counterexample :
    ((AState.initial.onUpdateDisplaySettings bgUpdate).1.onUpdateDisplaySettings
        leftUpdate).1.displaySettings =
      { margins := { left := some 5, right := none, top := none, bottom := none },
        colors := { background := some "#111", font := none } } ∧
    defaultDisplaySettings.colors.font = some "#FFFFFF" ∧
    defaultDisplaySettings.margins.right = some 0 :=
  ⟨rfl, rfl, rfl⟩

/-- C6 amended: a colors-only partial followed by a margins-only partial
composes on the disjoint top-level keys (in either order), but each
supplied key replaces its whole sub-object, so the resulting store is
exactly the two supplied sub-objects — sub-fields omitted from a
supplied partial are absent afterwards, not kept at their defaults. -/
theorem settings_merge_disjoint_keys (s : DisplaySettings) (c : ColorsObj)
    (m : MarginsObj) :
    applyDisplayUpdate (applyDisplayUpdate s { margins := none, colors := some c })
        { margins := some m, colors := none } =
      { margins := m, colors := c } ∧
    applyDisplayUpdate (applyDisplayUpdate s { margins := none, colors := some c })
        { margins := some m, colors := none } =
      applyDisplayUpdate (applyDisplayUpdate s { margins := some m, colors := none })
        { margins := none, colors := some c } :=
  ⟨rfl, rfl⟩

/-- C7 counterexample: registering socket `X` twice without a name is
not an idempotent overwrite — the stored display name changes from
`Phone 1` to `Phone 2`, because the fallback is regenerated from the
registry size at each registration. -/
theorem register_idempotence_counterexample :
    assocFind "X" regOnce.connectedDevices = some ⟨"mobile", "Phone 1", none⟩ ∧
    assocFind "X" regTwice.connectedDevices = some ⟨"mobile", "Phone 2", none⟩ ∧
    regTwice ≠ regOnce :=
  ⟨rfl, rfl, by decide⟩

/-- C7 amended: a nameless mobile registration stores the generated
default `Phone (size+1)`; re-registering an existing id does not fail
(the registry keeps a single entry for it) and overwrites role and name,
idempotently so when a non-empty name is supplied — but a nameless
re-registration regenerates the default, so the stored name can change. -/
theorem register_mobile_device_names (s : BState) (sockId n : String)
    (hn : n ≠ "") :
    assocFind sockId (s.onRegisterMobileDevice sockId none).1.connectedDevices =
      some ⟨"mobile", "Phone " ++ toString (s.connectedDevices.length + 1), none⟩ ∧
    ((assocFind sockId s.connectedDevices).isSome = true →
      (s.onRegisterMobileDevice sockId (some n)).1.connectedDevices.length =
        s.connectedDevices.length) ∧
    assocFind sockId (s.onRegisterMobileDevice sockId (some n)).1.connectedDevices =
      some ⟨"mobile", n, none⟩ ∧
    ((s.onRegisterMobileDevice sockId (some n)).1.onRegisterMobileDevice sockId
        (some n)).1 =
      (s.onRegisterMobileDevice sockId (some n)).1 := by
  refine ⟨?_, ?_, ?_, ?_⟩
  · simp [BState.onRegisterMobileDevice, jsNameOr, assocFind_assocSet]
  · intro h
    simp only [BState.onRegisterMobileDevice]
    exact assocSet_length_of_find sockId _ s.connectedDevices h
  · simp [BState.onRegisterMobileDevice, jsNameOr, hn, assocFind_assocSet]
  · simp [BState.onRegisterMobileDevice, jsNameOr, hn, assocSet_assocSet]

/-- Witness for the amended C7, at the one-device state `regOnce`. -/
theorem register_mobile_device_names_witness :
    assocFind "X" (regOnce.onRegisterMobileDevice "X" none).1.connectedDevices =
      some ⟨"mobile", "Phone " ++ toString (regOnce.connectedDevices.length + 1),
            none⟩ ∧
    (regOnce.onRegisterMobileDevice "X" (some "Bob")).1.connectedDevices.length =
      regOnce.connectedDevices.length ∧
    assocFind "X" (regOnce.onRegisterMobileDevice "X" (some "Bob")).1.connectedDevices =
      some ⟨"mobile", "Bob", none⟩ ∧
    ((regOnce.onRegisterMobileDevice "X" (some "Bob")).1.onRegisterMobileDevice "X"
        (some "Bob")).1 =
      (regOnce.onRegisterMobileDevice "X" (some "Bob")).1 := by
  have h := register_mobile_device_names regOnce "X" "Bob" (by decide)
  exact ⟨h.1, h.2.1 (by decide), h.2.2.1, h.2.2.2⟩

/-- C10: `upload-sponsor` echoes the client-supplied file name verbatim
into the returned URL, and the write path `path.join(__dirname, 'public',
'uploads', fileName)` stays inside the uploads directory for a plain
name but resolves outside it for a traversal name such as
`../evil.png`. -/
theorem upload_sponsor_path_traversal (s : AState) (fn : String) :
    (s.onUploadSponsor fn).2 =
      [⟨ATarget.sender, AMsg.sponsorUploaded ("/uploads/" ++ fn)⟩] ∧
    inUploadsDir (uploadWritePathSegs "logo.png") = true ∧
    uploadWritePathSegs "../evil.png" = ["public", "evil.png"] ∧
    inUploadsDir (uploadWritePathSegs "../evil.png") = false := by
  refine ⟨rfl, ?_, ?_, ?_⟩ <;> decide
